import Mathlib

/-!
# `wireguard-go-windows/libwg.go`: tunnel session lifecycle

A shallow embedding of the Go file `libwg.go` and theorems about it.

* The package-level map `tunnels map[int32]TunnelContext` is threaded through
  every operation explicitly (table in, table out).
* Calls into other packages (the wintun driver, the wireguard device, the UAPI
  listener, the interface watcher, `os.NewFile`) are taken from an `Env` of
  collaborator outcomes, and every call the code makes is recorded, in program
  order, in a list of `Effect`s.
* `int`, `int32`, `uint16`, `uint32` values are `Int`/`Nat`; the only
  arithmetic in the file is the `i++` of `getContextHandle`, which stays below
  `math.MaxInt32`.
-/

namespace Libwg

/-! ## Data model -/

/-- An `*os.File` as returned by `os.NewFile`. -/
structure File where
  fd : Int
  deriving DecidableEq, Repr

/-- The `io.Writer` values `newLogger` chooses between. -/
inductive Writer where
  /-- the file built from the logging descriptor -/
  | file (f : File)
  /-- the value of `os.Stdout` -/
  | stdout
  /-- the value of `ioutil.Discard` -/
  | discard
  deriving DecidableEq, Repr

/-- The flag constants of package `log` that the file uses. -/
inductive LogFlag where
  | Ldate
  | Ltime
  deriving DecidableEq, Repr

/-- A `*log.Logger` as built by `log.New(out, pfx, flag)`. -/
structure GoLogger where
  out : Writer
  pfx : String
  flag : List LogFlag
  deriving DecidableEq, Repr

/-- The three channels of `device.Logger`. -/
structure Logger where
  Debug : GoLogger
  Info : GoLogger
  Error : GoLogger
  deriving DecidableEq, Repr

/-- Modelled from the spec: the severity thresholds `device.LogLevel*` of the
wireguard package, which libwg.go only imports. The spec fixes their order
(ascending: silent < error < info < debug), stated by `LogLevels.Ascending`. -/
structure LogLevels where
  LogLevelSilent : Int
  LogLevelError : Int
  LogLevelInfo : Int
  LogLevelDebug : Int
  deriving DecidableEq, Repr

/-- The order of the thresholds: silent < error < info < debug. -/
def LogLevels.Ascending (lv : LogLevels) : Prop :=
  lv.LogLevelSilent < lv.LogLevelError ∧ lv.LogLevelError < lv.LogLevelInfo ∧
    lv.LogLevelInfo < lv.LogLevelDebug

instance (lv : LogLevels) : Decidable lv.Ascending := by
  unfold LogLevels.Ascending; infer_instance

/-- A `*tun.NativeTun`, the wintun adapter. -/
structure NativeTun where
  id : Nat
  deriving DecidableEq, Repr

/-- Modelled from the spec: a `*device.Device`, the protocol engine, is bound to
the tun device and the logger it was constructed from (construction is pure
in-memory setup and has no failure path). -/
structure Device where
  tun : NativeTun
  logger : Logger
  deriving DecidableEq, Repr

/-- A `net.Listener` returned by `ipc.UAPIListen`. -/
structure Listener where
  id : Nat
  deriving DecidableEq, Repr

/-- The value returned by `watchInterfaces()`. -/
structure Watcher where
  id : Nat
  deriving DecidableEq, Repr

/-- A `windows.GUID`. -/
structure GUID where
  Data1 : Nat
  Data2 : Nat
  Data3 : Nat
  Data4 : List Nat
  deriving DecidableEq, Repr

/-- An `interfaceWatcherEvent` literal as built in `wgTurnOn`. -/
structure interfaceWatcherEvent where
  luid : Nat
  family : Nat
  deriving DecidableEq, Repr

/-- The Go struct `TunnelContext`. -/
structure TunnelContext where
  device : Device
  uapi : Listener
  logger : Logger
  deriving DecidableEq, Repr

/-- The package variable `tunnels map[int32]TunnelContext`: a finite map with
one entry per key. The order of `entries` stands for the order in which a
`range` over the map visits them, which Go leaves unspecified; theorems
quantify over every table, hence over every such order. -/
abbrev Tunnels := AList (fun _ : Int => TunnelContext)

/-- The Go constant `math.MaxInt32`. -/
def MaxInt32 : Nat := 2147483647

/-- Every call that the code makes on a collaborator or on the table, in
program order. -/
inductive Effect where
  /-- the call `l.Println(msg)` -/
  | println (l : GoLogger) (msg : String)
  /-- the call `l.Printf(format, interfaceIndex, blackhole)` -/
  | printf (l : GoLogger) (format : String) (interfaceIndex : Nat) (blackhole : Bool)
  /-- the call `watchInterfaces()` and the watcher it returned, if any -/
  | watchInterfaces (r : Option Watcher)
  /-- the deferred `watcher.destroy()` -/
  | destroy (w : Watcher)
  /-- the call `tun.CreateTUNWithRequestedGUID(ifaceName, &networkId, mtu)` -/
  | createTUN (ifaceName : String) (networkId : GUID) (mtu : Int) (r : Option NativeTun)
  /-- the call `nativeTun.Name()` -/
  | tunName (t : NativeTun)
  /-- the call `nativeTun.Close()` -/
  | tunClose (t : NativeTun)
  /-- the call `device.NewDevice(wintun, logger)` -/
  | newDevice (d : Device)
  /-- the call `ipc.UAPIListen(ifaceName)` -/
  | uapiListen (ifaceName : String) (r : Option Listener)
  /-- the call `uapi.Close()` -/
  | uapiClose (l : Listener)
  /-- the call `device.IpcSetOperation(...)` on the settings text -/
  | ipcSetOperation (d : Device) (settings : String)
  /-- the call `device.Up()` -/
  | deviceUp (d : Device)
  /-- the call `device.Close()` -/
  | deviceClose (d : Device)
  /-- the call `watcher.join(interfaces, timeout)` -/
  | join (w : Watcher) (interfaces : List interfaceWatcherEvent) (timeout : Nat)
  /-- the statement `go func() ...` that starts the UAPI accept loop; the
  closure captures `uapi`, `device` and `logger` -/
  | goServiceUAPI (l : Listener) (d : Device) (logger : Logger)
  /-- the statement `go device.IpcHandle(conn)` -/
  | goIpcHandle (d : Device) (conn : Nat)
  /-- the call `uapi.Accept()` -/
  | accept (l : Listener)
  /-- the assignment `tunnels[contextHandle] = ctx` -/
  | register (contextHandle : Int) (ctx : TunnelContext)
  /-- the statement `delete(tunnels, contextHandle)` -/
  | delete (contextHandle : Int)
  /-- the call `device.BindSocketToInterface4(interfaceIndex, blackhole)` -/
  | bind4 (d : Device) (interfaceIndex : Nat) (blackhole : Bool)
  /-- the call `device.BindSocketToInterface6(interfaceIndex, blackhole)` -/
  | bind6 (d : Device) (interfaceIndex : Nat) (blackhole : Bool)
  deriving DecidableEq, Repr

/-- What an exported function leaves behind: its return value, the table after
the call and the effects of the call. -/
structure Outcome (α : Type) where
  ret : α
  tunnels : Tunnels
  trace : List Effect

/-! ## `newLogger` -/

/-- Lines 49-55 of `newLogger`: the file of the descriptor when `os.NewFile`
gives one, `os.Stdout` otherwise. `NewFile` is the function `os.NewFile`. -/
def newLogger.output (NewFile : Int → Option File) (loggingFd : Int) : Writer :=
  match NewFile loggingFd with
  | some outputFile => Writer.file outputFile
  | none => Writer.stdout

/-- Lines 57-68 of `newLogger`: the writers `(logErr, logInfo, logDebug)`. -/
def newLogger.writers (lv : LogLevels) (output : Writer) (level : Int) :
    Writer × Writer × Writer :=
  if level ≥ lv.LogLevelDebug then (output, output, output)
  else if level ≥ lv.LogLevelInfo then (output, output, Writer.discard)
  else if level ≥ lv.LogLevelError then (output, Writer.discard, Writer.discard)
  else (Writer.discard, Writer.discard, Writer.discard)

/-- The Go function `newLogger`. -/
def newLogger (NewFile : Int → Option File) (lv : LogLevels) (loggingFd : Int) (level : Int) :
    Logger :=
  let output := newLogger.output NewFile loggingFd
  match newLogger.writers lv output level with
  | (logErr, logInfo, logDebug) =>
    { Debug := ⟨logDebug, "DEBUG: ", [LogFlag.Ldate, LogFlag.Ltime]⟩
      Info := ⟨logInfo, "INFO: ", [LogFlag.Ldate, LogFlag.Ltime]⟩
      Error := ⟨logErr, "ERROR: ", [LogFlag.Ldate, LogFlag.Ltime]⟩ }

/-! ## `getContextHandle` -/

/-- The `for` loop of `getContextHandle`, started at `i`: `fuel` bounds the
number of iterations, and the loop leaves through its condition
`i < math.MaxInt32` or through `break`. -/
def getContextHandle.loop (tunnels : Tunnels) : Nat → Nat → Nat
  | 0, i => i
  | fuel + 1, i =>
    if i < MaxInt32 then
      if (tunnels.lookup (i : Int)).isSome then getContextHandle.loop tunnels fuel (i + 1)
      else i
    else i

/-- The Go function `getContextHandle`: the result and the table after it. -/
def getContextHandle (tunnels : Tunnels) : Except String Int × Tunnels :=
  let i := getContextHandle.loop tunnels MaxInt32 0
  if i = MaxInt32 then (Except.error "Handle table is full", tunnels)
  else (Except.ok (i : Int), tunnels)

/-! ## Collaborators -/

/-- Why an `Accept` on the UAPI listener failed: the listener was closed (by
`wgTurnOff`), or some other error on a listener that is still open. -/
inductive AcceptError where
  | closed
  | other (msg : String)
  deriving DecidableEq, Repr

/-- The text of an accept error, as `Println(err)` prints it. -/
def AcceptError.Error : AcceptError → String
  | AcceptError.closed => "use of closed network connection"
  | AcceptError.other msg => msg

/-- The outcomes of the calls that libwg.go makes into other packages. An
error is the text that `Println(err)` prints. The address-family constants
`windows.AF_INET` and `windows.AF_INET6` are imported, not defined, by the
file and are fields as well. -/
structure Env where
  /-- the function `os.NewFile`: `none` is its nil result -/
  NewFile : Int → Option File
  /-- the constants `device.LogLevel*` -/
  levels : LogLevels
  AF_INET : Nat
  AF_INET6 : Nat
  watchInterfaces : Except String Watcher
  CreateTUNWithRequestedGUID : String → GUID → Int → Except String NativeTun
  /-- the method `nativeTun.Name()` -/
  Name : NativeTun → Except String String
  /-- the method `nativeTun.LUID()` -/
  LUID : NativeTun → Nat
  UAPIListen : String → Except String Listener
  /-- the method `device.IpcSetOperation` on the settings text: `none` is a nil error -/
  IpcSetOperation : Device → String → Option String
  /-- the method `watcher.join(interfaces, timeout)` -/
  join : Watcher → List interfaceWatcherEvent → Nat → Bool
  /-- the method `device.BindSocketToInterface4`: `none` is a nil error -/
  BindSocketToInterface4 : Device → Nat → Bool → Option String
  /-- the method `device.BindSocketToInterface6`: `none` is a nil error -/
  BindSocketToInterface6 : Device → Nat → Bool → Option String

/-! ## `wgTurnOn` -/

/-- The GUID literal `networkId` of `wgTurnOn`. -/
def networkId : GUID :=
  ⟨0xafe43773, 0xe1f8, 0x4ebb, [0x85, 0x36, 0x57, 0x6a, 0xb8, 0x6a, 0xfe, 0x9a]⟩

/-- Lines 135-221 of `wgTurnOn`: what runs between `defer watcher.destroy()`
and the `return` that triggers it. -/
def wgTurnOn.deferred (env : Env) (tunnels : Tunnels) (logger : Logger) (contextHandle : Int)
    (ifaceName : String) (settings : String) (mtu : Int) (watcher : Watcher) : Outcome Int :=
  match env.CreateTUNWithRequestedGUID ifaceName networkId mtu with
  | Except.error err =>
    ⟨-1, tunnels,
      [Effect.createTUN ifaceName networkId mtu none,
       Effect.println logger.Error "Failed to create tunnel",
       Effect.println logger.Error err]⟩
  | Except.ok nativeTun =>
    let tr1 := [Effect.createTUN ifaceName networkId mtu (some nativeTun), Effect.tunName nativeTun]
    match env.Name nativeTun with
    | Except.error _ =>
      ⟨-1, tunnels, tr1 ++
        [Effect.tunClose nativeTun,
         Effect.println logger.Error "Failed to determine name of wintun adapter"]⟩
    | Except.ok actualInterfaceName =>
      if actualInterfaceName ≠ ifaceName then
        ⟨-1, tunnels, tr1 ++
          [Effect.tunClose nativeTun,
           Effect.println logger.Error "Failed to create adapter with specific name"]⟩
      else
        let device : Device := ⟨nativeTun, logger⟩
        let tr2 := tr1 ++ [Effect.newDevice device]
        match env.UAPIListen ifaceName with
        | Except.error err =>
          ⟨-1, tunnels, tr2 ++
            [Effect.uapiListen ifaceName none,
             Effect.println logger.Error "Failed to start UAPI",
             Effect.println logger.Error err,
             Effect.deviceClose device]⟩
        | Except.ok uapi =>
          let tr3 := tr2 ++
            [Effect.uapiListen ifaceName (some uapi), Effect.ipcSetOperation device settings]
          match env.IpcSetOperation device settings with
          | some setError =>
            ⟨-1, tunnels, tr3 ++
              [Effect.println logger.Error "Failed to set device configuration",
               Effect.println logger.Error setError,
               Effect.uapiClose uapi,
               Effect.deviceClose device]⟩
          | none =>
            let interfaces : List interfaceWatcherEvent :=
              [⟨env.LUID nativeTun, env.AF_INET⟩, ⟨env.LUID nativeTun, env.AF_INET6⟩]
            let tr4 := tr3 ++
              [Effect.deviceUp device,
               Effect.println logger.Debug "Waiting for interfaces to attach",
               Effect.join watcher interfaces 5]
            if !env.join watcher interfaces 5 then
              ⟨-1, tunnels, tr4 ++
                [Effect.println logger.Error "Failed to wait for IP interfaces to become available",
                 Effect.uapiClose uapi,
                 Effect.deviceClose device]⟩
            else
              let ctx : TunnelContext := { device := device, uapi := uapi, logger := logger }
              ⟨contextHandle, tunnels.insert contextHandle ctx, tr4 ++
                [Effect.println logger.Debug "Interfaces OK",
                 Effect.goServiceUAPI uapi device logger,
                 Effect.register contextHandle ctx]⟩

/-- The exported Go function `wgTurnOn`. A nil `*C.char` is `none`. -/
def wgTurnOn (env : Env) (tunnels : Tunnels) (cIfaceName : Option String) (mtu : Int)
    (cSettings : Option String) (loggingFd : Int) (level : Int) : Outcome Int :=
  let logger := newLogger env.NewFile env.levels loggingFd level
  match cIfaceName with
  | none => ⟨-1, tunnels, [Effect.println logger.Error "cIfaceName is null"]⟩
  | some ifaceName =>
    match cSettings with
    | none => ⟨-1, tunnels, [Effect.println logger.Error "cSettings is null"]⟩
    | some settings =>
      match getContextHandle tunnels with
      | (Except.error err, tunnels) => ⟨-1, tunnels, [Effect.println logger.Error err]⟩
      | (Except.ok contextHandle, tunnels) =>
        match env.watchInterfaces with
        | Except.error err =>
          ⟨-1, tunnels, [Effect.watchInterfaces none, Effect.println logger.Error err]⟩
        | Except.ok watcher =>
          let r := wgTurnOn.deferred env tunnels logger contextHandle ifaceName settings mtu watcher
          { r with
            trace := [Effect.watchInterfaces (some watcher)] ++ r.trace ++ [Effect.destroy watcher] }

/-! ## The UAPI accept loop started by `wgTurnOn` -/

/-- Whether a loop is still iterating or has been left. -/
inductive LoopStatus where
  | running
  | exited
  deriving DecidableEq, Repr

/-- One iteration of the `for` loop of lines 204-212, given what this
`uapi.Accept()` returns. Both branches go on to the next iteration: the error
branch by `continue`, the other by reaching the end of the body. -/
def serviceUAPI.iteration (uapi : Listener) (device : Device) (logger : Logger)
    (r : Except AcceptError Nat) : LoopStatus × List Effect :=
  match r with
  | Except.error err =>
    (LoopStatus.running,
      [Effect.accept uapi,
       Effect.println logger.Info "UAPI Accept() failed",
       Effect.println logger.Info err.Error])
  | Except.ok conn =>
    (LoopStatus.running, [Effect.accept uapi, Effect.goIpcHandle device conn])

/-- The goroutine of lines 203-213 run for at most `fuel` iterations, where
`Accept k` is what the `k`-th call of `uapi.Accept()` returns and `n` is the
number of calls made so far. -/
def serviceUAPI (uapi : Listener) (device : Device) (logger : Logger)
    (Accept : Nat → Except AcceptError Nat) : Nat → Nat → LoopStatus × List Effect
  | 0, _ => (LoopStatus.running, [])
  | fuel + 1, n =>
    match serviceUAPI.iteration uapi device logger (Accept n) with
    | (LoopStatus.exited, tr) => (LoopStatus.exited, tr)
    | (LoopStatus.running, tr) =>
      match serviceUAPI uapi device logger Accept fuel (n + 1) with
      | (status, rest) => (status, tr ++ rest)

/-! ## `wgTurnOff` -/

/-- The exported Go function `wgTurnOff`. -/
def wgTurnOff (tunnels : Tunnels) (contextHandle : Int) : Outcome Unit :=
  match tunnels.lookup contextHandle with
  | none => ⟨(), tunnels, []⟩
  | some context =>
    ⟨(), tunnels.erase contextHandle,
      [Effect.delete contextHandle,
       Effect.uapiClose context.uapi,
       Effect.deviceClose context.device]⟩

/-! ## `wgRebindTunnelSocket` -/

/-- The body of the `range` loop of `wgRebindTunnelSocket` for one `tunnel`. -/
def wgRebindTunnelSocket.body (env : Env) (family : Nat) (interfaceIndex : Nat)
    (tunnel : TunnelContext) : List Effect :=
  let blackhole := (interfaceIndex == 0)
  if family = env.AF_INET then
    [Effect.printf tunnel.logger.Info "Binding v4 socket to interface %d (blackhole=%v)"
        interfaceIndex blackhole,
     Effect.bind4 tunnel.device interfaceIndex blackhole] ++
    (match env.BindSocketToInterface4 tunnel.device interfaceIndex blackhole with
     | some err => [Effect.println tunnel.logger.Info err]
     | none => [])
  else if family = env.AF_INET6 then
    [Effect.printf tunnel.logger.Info "Binding v6 socket to interface %d (blackhole=%v)"
        interfaceIndex blackhole,
     Effect.bind6 tunnel.device interfaceIndex blackhole] ++
    (match env.BindSocketToInterface6 tunnel.device interfaceIndex blackhole with
     | some err => [Effect.println tunnel.logger.Info err]
     | none => [])
  else []

/-- The exported Go function `wgRebindTunnelSocket`: the loop body is run on
every entry of the table, one after the other. -/
def wgRebindTunnelSocket (env : Env) (tunnels : Tunnels) (family : Nat) (interfaceIndex : Nat) :
    Outcome Unit :=
  ⟨(), tunnels,
    tunnels.entries.foldl
      (fun tr entry => tr ++ wgRebindTunnelSocket.body env family interfaceIndex entry.2) []⟩

/-! ## Sequences of calls -/

/-- A call of `wgTurnOn`, with the collaborator outcomes it meets, or of
`wgTurnOff`. -/
inductive Call where
  | turnOn (env : Env) (cIfaceName : Option String) (mtu : Int) (cSettings : Option String)
      (loggingFd : Int) (level : Int)
  | turnOff (contextHandle : Int)

/-- The table after one call. -/
def Call.run (tunnels : Tunnels) : Call → Tunnels
  | Call.turnOn env cIfaceName mtu cSettings loggingFd level =>
    (wgTurnOn env tunnels cIfaceName mtu cSettings loggingFd level).tunnels
  | Call.turnOff contextHandle => (wgTurnOff tunnels contextHandle).tunnels

/-- The table after a sequence of calls, run one after the other. -/
def runCalls (tunnels : Tunnels) (calls : List Call) : Tunnels :=
  calls.foldl Call.run tunnels

/-! ## Observations on traces -/

/-- How often the tun device `t` was returned by a successful create call. -/
def tunOpens (t : NativeTun) (tr : List Effect) : Nat :=
  tr.countP fun e =>
    match e with
    | Effect.createTUN _ _ _ (some t') => decide (t' = t)
    | _ => false

/-- Modelled from the spec: how often the tun device `t` was closed. The
wireguard package is not part of libwg.go; by the spec, closing the protocol
engine internally releases the device it is bound to, so both `nativeTun.Close()`
and `device.Close()` on an engine bound to `t` count. -/
def tunCloses (t : NativeTun) (tr : List Effect) : Nat :=
  tr.countP fun e =>
    match e with
    | Effect.tunClose t' => decide (t' = t)
    | Effect.deviceClose d => decide (d.tun = t)
    | _ => false

/-- How often the engine `d` was constructed. -/
def engineOpens (d : Device) (tr : List Effect) : Nat :=
  tr.countP fun e =>
    match e with
    | Effect.newDevice d' => decide (d' = d)
    | _ => false

/-- How often the engine `d` was closed. -/
def engineCloses (d : Device) (tr : List Effect) : Nat :=
  tr.countP fun e =>
    match e with
    | Effect.deviceClose d' => decide (d' = d)
    | _ => false

/-- How often the listener `l` was returned by a successful listen call. -/
def listenerOpens (l : Listener) (tr : List Effect) : Nat :=
  tr.countP fun e =>
    match e with
    | Effect.uapiListen _ (some l') => decide (l' = l)
    | _ => false

/-- How often the listener `l` was closed. -/
def listenerCloses (l : Listener) (tr : List Effect) : Nat :=
  tr.countP fun e =>
    match e with
    | Effect.uapiClose l' => decide (l' = l)
    | _ => false

/-- How often the watcher `w` was returned by a successful `watchInterfaces()`. -/
def watcherOpens (w : Watcher) (tr : List Effect) : Nat :=
  tr.countP fun e =>
    match e with
    | Effect.watchInterfaces (some w') => decide (w' = w)
    | _ => false

/-- How often the watcher `w` was destroyed. -/
def watcherCloses (w : Watcher) (tr : List Effect) : Nat :=
  tr.countP fun e =>
    match e with
    | Effect.destroy w' => decide (w' = w)
    | _ => false

/-- The socket bind calls. -/
def Effect.isBind : Effect → Bool
  | Effect.bind4 _ _ _ => true
  | Effect.bind6 _ _ _ => true
  | _ => false

/-- The assignments into the table. -/
def Effect.isRegister : Effect → Bool
  | Effect.register _ _ => true
  | _ => false

/-- The launches of the UAPI accept loop. -/
def Effect.isLaunch : Effect → Bool
  | Effect.goServiceUAPI _ _ _ => true
  | _ => false

/-- The calls of `uapi.Accept()`. -/
def Effect.isAccept : Effect → Bool
  | Effect.accept _ => true
  | _ => false

/-- The calls that construct the engine or start the listener. -/
def Effect.isEngineOrListen : Effect → Bool
  | Effect.newDevice _ => true
  | Effect.uapiListen _ _ => true
  | _ => false

/-- Some effect satisfying `p` occurs in the trace strictly before some effect
satisfying `q`. -/
def occursBefore (p q : Effect → Bool) : List Effect → Bool
  | [] => false
  | e :: rest => (p e && rest.any q) || occursBefore p q rest

/-- Every tun device, engine and listener opened in the trace is closed in it
as often as it was opened. -/
def AllClosed (tr : List Effect) : Prop :=
  (∀ t : NativeTun, tunCloses t tr = tunOpens t tr) ∧
  (∀ d : Device, engineCloses d tr = engineOpens d tr) ∧
  (∀ l : Listener, listenerCloses l tr = listenerOpens l tr)

/-- The trace neither assigns into the table nor launches the accept loop. -/
def noCommit (tr : List Effect) : Bool :=
  tr.all fun e => !e.isRegister && !e.isLaunch

/-! ## Stub collaborators used to run the code on concrete inputs -/

/-- The thresholds as the wireguard package numbers them. -/
def stubLevels : LogLevels := ⟨0, 1, 2, 3⟩

/-- A logging descriptor is valid when it is not negative. -/
def stubNewFile (fd : Int) : Option File := if 0 ≤ fd then some ⟨fd⟩ else none

/-- A session on tun device 7, to fill tables with. -/
def stubContext : TunnelContext :=
  let logger := newLogger stubNewFile stubLevels 1 1
  { device := ⟨⟨7⟩, logger⟩, uapi := ⟨7⟩, logger := logger }

/-- A session on tun device 8. -/
def stubContextOther : TunnelContext :=
  let logger := newLogger stubNewFile stubLevels 1 3
  { device := ⟨⟨8⟩, logger⟩, uapi := ⟨8⟩, logger := logger }

/-- The table with `stubContext` under handle 0 and `stubContextOther` under
handle 1. -/
def stubTunnels : Tunnels :=
  (AList.insert (1 : Int) stubContextOther (AList.insert (0 : Int) stubContext ∅))

/-- Collaborators that all succeed; the adapter is always named "wg0", and the
v4 bind of the engine on tun device 7 fails. -/
def stubEnv : Env where
  NewFile := stubNewFile
  levels := stubLevels
  AF_INET := 2
  AF_INET6 := 23
  watchInterfaces := Except.ok ⟨1⟩
  CreateTUNWithRequestedGUID := fun _ _ _ => Except.ok ⟨1⟩
  Name := fun _ => Except.ok "wg0"
  LUID := fun t => t.id
  UAPIListen := fun _ => Except.ok ⟨1⟩
  IpcSetOperation := fun _ _ => none
  join := fun _ _ _ => true
  BindSocketToInterface4 := fun d _ _ => if d.tun.id = 7 then some "bind failed" else none
  BindSocketToInterface6 := fun _ _ _ => none

/-- A listener that has been closed: every accept fails. -/
def stubClosedAccept : Nat → Except AcceptError Nat := fun _ => Except.error AcceptError.closed

/-- Collaborators as in `stubEnv`, except that the interfaces never attach. -/
def stubEnvNoAttach : Env := { stubEnv with join := fun _ _ _ => false }

/-! ## Theorems: `newLogger` -/

/-- The destination is never the discard sink. -/
theorem newLogger.output_ne_discard (NewFile : Int → Option File) (loggingFd : Int) :
    newLogger.output NewFile loggingFd ≠ Writer.discard := by
  unfold newLogger.output
  split <;> simp

/-- C8. Severity routing: the destination is the file that `os.NewFile` builds
from the caller's logging descriptor, or `os.Stdout` when it builds none; and
with thresholds ordered silent < error < info < debug, each channel of the
logger that `newLogger` builds is that destination when the level reaches the
channel's threshold and the discard sink otherwise; at level error only the
error channel delivers, below error none does, and a channel that delivers at
one level delivers at every higher level. -/
theorem newLogger_severity_routing (NewFile : Int → Option File) (lv : LogLevels)
    (hlv : lv.Ascending) (loggingFd : Int) (level : Int) :
    ((∀ outputFile : File, NewFile loggingFd = some outputFile →
        newLogger.output NewFile loggingFd = Writer.file outputFile ∧
        ((newLogger NewFile lv loggingFd level).Error.out = Writer.file outputFile ↔
          level ≥ lv.LogLevelError) ∧
        ((newLogger NewFile lv loggingFd level).Info.out = Writer.file outputFile ↔
          level ≥ lv.LogLevelInfo) ∧
        ((newLogger NewFile lv loggingFd level).Debug.out = Writer.file outputFile ↔
          level ≥ lv.LogLevelDebug)) ∧
      (NewFile loggingFd = none →
        newLogger.output NewFile loggingFd = Writer.stdout ∧
        ((newLogger NewFile lv loggingFd level).Error.out = Writer.stdout ↔
          level ≥ lv.LogLevelError) ∧
        ((newLogger NewFile lv loggingFd level).Info.out = Writer.stdout ↔
          level ≥ lv.LogLevelInfo) ∧
        ((newLogger NewFile lv loggingFd level).Debug.out = Writer.stdout ↔
          level ≥ lv.LogLevelDebug))) ∧
    (((newLogger NewFile lv loggingFd level).Error.out = newLogger.output NewFile loggingFd ↔
          level ≥ lv.LogLevelError) ∧
      ((newLogger NewFile lv loggingFd level).Error.out = Writer.discard ↔
          ¬ level ≥ lv.LogLevelError)) ∧
    (((newLogger NewFile lv loggingFd level).Info.out = newLogger.output NewFile loggingFd ↔
          level ≥ lv.LogLevelInfo) ∧
      ((newLogger NewFile lv loggingFd level).Info.out = Writer.discard ↔
          ¬ level ≥ lv.LogLevelInfo)) ∧
    (((newLogger NewFile lv loggingFd level).Debug.out = newLogger.output NewFile loggingFd ↔
          level ≥ lv.LogLevelDebug) ∧
      ((newLogger NewFile lv loggingFd level).Debug.out = Writer.discard ↔
          ¬ level ≥ lv.LogLevelDebug)) ∧
    (level = lv.LogLevelError →
      (newLogger NewFile lv loggingFd level).Debug.out = Writer.discard ∧
      (newLogger NewFile lv loggingFd level).Info.out = Writer.discard ∧
      (newLogger NewFile lv loggingFd level).Error.out = newLogger.output NewFile loggingFd) ∧
    (level < lv.LogLevelError →
      (newLogger NewFile lv loggingFd level).Debug.out = Writer.discard ∧
      (newLogger NewFile lv loggingFd level).Info.out = Writer.discard ∧
      (newLogger NewFile lv loggingFd level).Error.out = Writer.discard) ∧
    (∀ higher : Int, level ≤ higher →
      ((newLogger NewFile lv loggingFd level).Error.out ≠ Writer.discard →
        (newLogger NewFile lv loggingFd higher).Error.out ≠ Writer.discard) ∧
      ((newLogger NewFile lv loggingFd level).Info.out ≠ Writer.discard →
        (newLogger NewFile lv loggingFd higher).Info.out ≠ Writer.discard) ∧
      ((newLogger NewFile lv loggingFd level).Debug.out ≠ Writer.discard →
        (newLogger NewFile lv loggingFd higher).Debug.out ≠ Writer.discard)) := by
  obtain ⟨_, h1, h2⟩ := hlv
  have hne := newLogger.output_ne_discard NewFile loggingFd
  have key : ∀ l : Int,
      ((newLogger NewFile lv loggingFd l).Error.out =
          if l ≥ lv.LogLevelError then newLogger.output NewFile loggingFd else Writer.discard) ∧
      ((newLogger NewFile lv loggingFd l).Info.out =
          if l ≥ lv.LogLevelInfo then newLogger.output NewFile loggingFd else Writer.discard) ∧
      ((newLogger NewFile lv loggingFd l).Debug.out =
          if l ≥ lv.LogLevelDebug then newLogger.output NewFile loggingFd else Writer.discard) := by
    intro l
    simp only [newLogger, newLogger.writers]
    by_cases hd : l ≥ lv.LogLevelDebug
    · have hi : l ≥ lv.LogLevelInfo := by omega
      have he : l ≥ lv.LogLevelError := by omega
      simp [hd, hi, he]
    · by_cases hi : l ≥ lv.LogLevelInfo
      · have he : l ≥ lv.LogLevelError := by omega
        simp [hd, hi, he]
      · by_cases he : l ≥ lv.LogLevelError <;> simp [hd, hi, he]
  obtain ⟨ke, ki, kd⟩ := key level
  refine ⟨⟨?_, ?_⟩, ⟨?_, ?_⟩, ⟨?_, ?_⟩, ⟨?_, ?_⟩, ?_, ?_, ?_⟩
  · intro outputFile hfile
    have hout : newLogger.output NewFile loggingFd = Writer.file outputFile := by
      simp [newLogger.output, hfile]
    rw [ke, ki, kd, hout]
    refine ⟨rfl, ?_, ?_, ?_⟩
    · by_cases h : level ≥ lv.LogLevelError <;> simp [h]
    · by_cases h : level ≥ lv.LogLevelInfo <;> simp [h]
    · by_cases h : level ≥ lv.LogLevelDebug <;> simp [h]
  · intro hnone
    have hout : newLogger.output NewFile loggingFd = Writer.stdout := by
      simp [newLogger.output, hnone]
    rw [ke, ki, kd, hout]
    refine ⟨rfl, ?_, ?_, ?_⟩
    · by_cases h : level ≥ lv.LogLevelError <;> simp [h]
    · by_cases h : level ≥ lv.LogLevelInfo <;> simp [h]
    · by_cases h : level ≥ lv.LogLevelDebug <;> simp [h]
  · rw [ke]; by_cases h : level ≥ lv.LogLevelError <;> simp [h, Ne.symm hne]
  · rw [ke]; by_cases h : level ≥ lv.LogLevelError <;> simp [h, hne]
  · rw [ki]; by_cases h : level ≥ lv.LogLevelInfo <;> simp [h, Ne.symm hne]
  · rw [ki]; by_cases h : level ≥ lv.LogLevelInfo <;> simp [h, hne]
  · rw [kd]; by_cases h : level ≥ lv.LogLevelDebug <;> simp [h, Ne.symm hne]
  · rw [kd]; by_cases h : level ≥ lv.LogLevelDebug <;> simp [h, hne]
  · intro h
    have hi : ¬ level ≥ lv.LogLevelInfo := by omega
    have hd : ¬ level ≥ lv.LogLevelDebug := by omega
    have he : level ≥ lv.LogLevelError := by omega
    rw [ke, ki, kd]; simp [hi, hd, he]
  · intro h
    have hi : ¬ level ≥ lv.LogLevelInfo := by omega
    have hd : ¬ level ≥ lv.LogLevelDebug := by omega
    have he : ¬ level ≥ lv.LogLevelError := by omega
    rw [ke, ki, kd]; simp [hi, hd, he]
  · intro higher hle
    obtain ⟨he, hi, hd⟩ := key higher
    rw [ke, ki, kd, he, hi, hd]
    refine ⟨?_, ?_, ?_⟩
    · by_cases h : level ≥ lv.LogLevelError
      · have h2 : higher ≥ lv.LogLevelError := by omega
        simp [h, h2, hne]
      · simp [h]
    · by_cases h : level ≥ lv.LogLevelInfo
      · have h2 : higher ≥ lv.LogLevelInfo := by omega
        simp [h, h2, hne]
      · simp [h]
    · by_cases h : level ≥ lv.LogLevelDebug
      · have h2 : higher ≥ lv.LogLevelDebug := by omega
        simp [h, h2, hne]
      · simp [h]

/-- Witness for C8: the thresholds 0 < 1 < 2 < 3, descriptor 4, level error:
the error channel is the file of descriptor 4, the other two discard. -/
theorem newLogger_severity_routing_witness :
    stubLevels.Ascending ∧
    stubNewFile 4 = some ⟨4⟩ ∧
    newLogger.output stubNewFile 4 = Writer.file ⟨4⟩ ∧
    ((newLogger stubNewFile stubLevels 4 1).Error.out = Writer.file ⟨4⟩ ↔
      (1 : Int) ≥ stubLevels.LogLevelError) ∧
    (newLogger stubNewFile stubLevels 4 1).Error.out = Writer.file ⟨4⟩ ∧
    (newLogger stubNewFile stubLevels 4 1).Debug.out = Writer.discard ∧
    (newLogger stubNewFile stubLevels 4 1).Info.out = Writer.discard :=
  ⟨by decide, by decide,
    ((newLogger_severity_routing stubNewFile stubLevels (by decide) 4 1).1.1 ⟨4⟩
      (by decide)).1,
    ((newLogger_severity_routing stubNewFile stubLevels (by decide) 4 1).1.1 ⟨4⟩
      (by decide)).2.1,
    ((newLogger_severity_routing stubNewFile stubLevels (by decide) 4 1).1.1 ⟨4⟩
      (by decide)).2.1.mpr (by decide),
    ((newLogger_severity_routing stubNewFile stubLevels (by decide) 4 1).2.2.2.2.1
      (by decide)).1,
    ((newLogger_severity_routing stubNewFile stubLevels (by decide) 4 1).2.2.2.2.1
      (by decide)).2.1⟩

/-! ## Theorems: `getContextHandle` -/

/-- The loop started at `i` with enough fuel stops at the first value from `i`
on that is not a key, or at `math.MaxInt32` when there is none. -/
theorem getContextHandle.loop_spec (tunnels : Tunnels) :
    ∀ (fuel i : Nat), i ≤ MaxInt32 → MaxInt32 ≤ i + fuel →
      i ≤ getContextHandle.loop tunnels fuel i ∧
      getContextHandle.loop tunnels fuel i ≤ MaxInt32 ∧
      (∀ j : Nat, i ≤ j → j < getContextHandle.loop tunnels fuel i → (j : Int) ∈ tunnels.keys) ∧
      (getContextHandle.loop tunnels fuel i < MaxInt32 →
        (getContextHandle.loop tunnels fuel i : Int) ∉ tunnels.keys) := by
  intro fuel
  induction fuel with
  | zero =>
    intro i hi hf
    have : i = MaxInt32 := by omega
    simp only [getContextHandle.loop]
    refine ⟨le_refl _, hi, ?_, ?_⟩
    · intro j h1 h2; omega
    · intro h; omega
  | succ fuel ih =>
    intro i hi hf
    simp only [getContextHandle.loop]
    by_cases hlt : i < MaxInt32
    · by_cases hk : (AList.lookup (i : Int) tunnels).isSome = true
      · rw [if_pos hlt, if_pos hk]
        obtain ⟨h1, h2, h3, h4⟩ := ih (i + 1) (by omega) (by omega)
        refine ⟨by omega, h2, ?_, h4⟩
        intro j hj1 hj2
        by_cases hji : j = i
        · subst hji
          exact AList.mem_keys.mp (AList.lookup_isSome.mp hk)
        · exact h3 j (by omega) hj2
      · rw [if_pos hlt, if_neg hk]
        refine ⟨le_refl _, hi, ?_, ?_⟩
        · intro j h1 h2; omega
        · intro _ hmem
          exact hk (AList.lookup_isSome.mpr (AList.mem_keys.mpr hmem))
    · rw [if_neg hlt]
      refine ⟨le_refl _, hi, ?_, ?_⟩
      · intro j h1 h2; omega
      · intro h; omega

/-- C1. `getContextHandle` leaves the table as it is and returns the lowest
free handle: when `i` below `math.MaxInt32` is not a key and every smaller
value is, it returns `i` without error; when some value below `math.MaxInt32`
is free it returns such a least one; and it returns the error
"Handle table is full" exactly when every value below `math.MaxInt32` is a
key. -/
theorem getContextHandle_lowest_free (tunnels : Tunnels) :
    (getContextHandle tunnels).2 = tunnels ∧
    (∀ i : Nat, i < MaxInt32 → (i : Int) ∉ tunnels.keys →
      (∀ j : Nat, j < i → (j : Int) ∈ tunnels.keys) →
      (getContextHandle tunnels).1 = Except.ok (i : Int)) ∧
    ((∃ i : Nat, i < MaxInt32 ∧ (i : Int) ∉ tunnels.keys) →
      ∃ i : Nat, i < MaxInt32 ∧ (getContextHandle tunnels).1 = Except.ok (i : Int) ∧
        (i : Int) ∉ tunnels.keys ∧ ∀ j : Nat, j < i → (j : Int) ∈ tunnels.keys) ∧
    ((getContextHandle tunnels).1 = Except.error "Handle table is full" ↔
      ∀ i : Nat, i < MaxInt32 → (i : Int) ∈ tunnels.keys) ∧
    (∀ err : String, (getContextHandle tunnels).1 = Except.error err →
      err = "Handle table is full") := by
  obtain ⟨_, h2, h3, h4⟩ :=
    getContextHandle.loop_spec tunnels MaxInt32 0 (Nat.zero_le _) (by omega)
  have hleast : ∀ i : Nat, i < MaxInt32 → (i : Int) ∉ tunnels.keys →
      (∀ j : Nat, j < i → (j : Int) ∈ tunnels.keys) →
      getContextHandle.loop tunnels MaxInt32 0 = i := by
    intro i hi hfree hbelow
    rcases Nat.lt_trichotomy (getContextHandle.loop tunnels MaxInt32 0) i with h | h | h
    · exact absurd (hbelow _ h) (h4 (by omega))
    · exact h
    · exact absurd (h3 i (Nat.zero_le _) h) hfree
  refine ⟨?_, ?_, ?_, ?_, ?_⟩
  · simp only [getContextHandle]
    split <;> rfl
  · intro i hi hfree hbelow
    have := hleast i hi hfree hbelow
    unfold getContextHandle
    simp only [this]
    rw [if_neg (by omega)]
  · rintro ⟨i, hi, hfree⟩
    have hlt : getContextHandle.loop tunnels MaxInt32 0 < MaxInt32 := by
      by_contra hge
      exact hfree (h3 i (Nat.zero_le _) (by omega))
    refine ⟨getContextHandle.loop tunnels MaxInt32 0, hlt, ?_, h4 hlt, ?_⟩
    · unfold getContextHandle
      simp only []
      rw [if_neg (by omega)]
    · intro j hj
      exact h3 j (Nat.zero_le _) hj
  · constructor
    · intro herr i hi
      have : getContextHandle.loop tunnels MaxInt32 0 = MaxInt32 := by
        by_contra hne
        unfold getContextHandle at herr
        simp only [] at herr
        rw [if_neg hne] at herr
        exact absurd herr (by simp)
      exact h3 i (Nat.zero_le _) (by omega)
    · intro hall
      have : getContextHandle.loop tunnels MaxInt32 0 = MaxInt32 := by
        by_contra hne
        exact h4 (by omega) (hall _ (by omega))
      unfold getContextHandle
      simp only [this, if_true]
  · intro err herr
    unfold getContextHandle at herr
    simp only [] at herr
    split at herr
    · simpa using herr.symm
    · exact absurd herr (by simp)

/-- Witness for C1: with the handles 0 and 1 taken, the next handle is 2. -/
theorem getContextHandle_lowest_free_witness :
    (getContextHandle stubTunnels).1 = Except.ok 2 :=
  (getContextHandle_lowest_free stubTunnels).2.1 2 (by decide) (by decide)
    (by
      intro j hj
      have : j = 0 ∨ j = 1 := by omega
      rcases this with h | h <;> subst h <;> decide)

/-! ## Theorems: `wgTurnOff` -/

/-- C5. Idempotent teardown: `wgTurnOff` of a handle that is not registered
leaves the table as it is and makes no call at all; and after `wgTurnOff` of a
registered handle, a second `wgTurnOff` of the same handle changes nothing and
makes no call, so over the two calls the listener and the engine of the session
are each closed exactly once. -/
theorem wgTurnOff_idempotent (tunnels : Tunnels) (contextHandle : Int) :
    (tunnels.lookup contextHandle = none →
      (wgTurnOff tunnels contextHandle).tunnels = tunnels ∧
      (wgTurnOff tunnels contextHandle).trace = []) ∧
    (∀ ctx : TunnelContext, tunnels.lookup contextHandle = some ctx →
      (wgTurnOff (wgTurnOff tunnels contextHandle).tunnels contextHandle).tunnels =
        (wgTurnOff tunnels contextHandle).tunnels ∧
      (wgTurnOff (wgTurnOff tunnels contextHandle).tunnels contextHandle).trace = [] ∧
      listenerCloses ctx.uapi
        ((wgTurnOff tunnels contextHandle).trace ++
          (wgTurnOff (wgTurnOff tunnels contextHandle).tunnels contextHandle).trace) = 1 ∧
      engineCloses ctx.device
        ((wgTurnOff tunnels contextHandle).trace ++
          (wgTurnOff (wgTurnOff tunnels contextHandle).tunnels contextHandle).trace) = 1) := by
  constructor
  · intro hnone
    simp [wgTurnOff, hnone]
  · intro ctx hsome
    have hfirst : wgTurnOff tunnels contextHandle =
        ⟨(), tunnels.erase contextHandle,
          [Effect.delete contextHandle, Effect.uapiClose ctx.uapi,
            Effect.deviceClose ctx.device]⟩ := by
      simp [wgTurnOff, hsome]
    have hsecond : wgTurnOff (tunnels.erase contextHandle) contextHandle =
        ⟨(), tunnels.erase contextHandle, []⟩ := by
      simp [wgTurnOff, AList.lookup_erase]
    rw [hfirst]
    simp only [hsecond]
    refine ⟨trivial, trivial, ?_, ?_⟩
    · simp [listenerCloses, List.countP_cons]
    · simp [engineCloses, List.countP_cons]

/-- Witness for C5: handle 5 is not registered in the table with handles 0 and
1, and handle 0 is torn down twice. -/
theorem wgTurnOff_idempotent_witness :
    ((wgTurnOff stubTunnels 5).tunnels = stubTunnels ∧ (wgTurnOff stubTunnels 5).trace = []) ∧
    (wgTurnOff (wgTurnOff stubTunnels 0).tunnels 0).trace = [] :=
  ⟨(wgTurnOff_idempotent stubTunnels 5).1 (by decide),
    ((wgTurnOff_idempotent stubTunnels 0).2 stubContext (by decide)).2.1⟩

/-- C6. Teardown order and frame: `wgTurnOff` of a registered handle removes
the handle from the table, then closes the UAPI listener of that session, then
closes its engine, and makes no other call; afterwards the handle is not
registered and every other handle maps to the session it mapped to before. -/
theorem wgTurnOff_order_frame (tunnels : Tunnels) (contextHandle : Int) (ctx : TunnelContext)
    (hreg : tunnels.lookup contextHandle = some ctx) :
    (wgTurnOff tunnels contextHandle).trace =
      [Effect.delete contextHandle, Effect.uapiClose ctx.uapi, Effect.deviceClose ctx.device] ∧
    (wgTurnOff tunnels contextHandle).tunnels.lookup contextHandle = none ∧
    (∀ k : Int, k ≠ contextHandle →
      (wgTurnOff tunnels contextHandle).tunnels.lookup k = tunnels.lookup k) ∧
    (∀ l : Listener, l ≠ ctx.uapi →
      listenerCloses l (wgTurnOff tunnels contextHandle).trace = 0) ∧
    (∀ d : Device, d ≠ ctx.device →
      engineCloses d (wgTurnOff tunnels contextHandle).trace = 0) := by
  have hrun : wgTurnOff tunnels contextHandle =
      ⟨(), tunnels.erase contextHandle,
        [Effect.delete contextHandle, Effect.uapiClose ctx.uapi,
          Effect.deviceClose ctx.device]⟩ := by
    simp [wgTurnOff, hreg]
  rw [hrun]
  refine ⟨rfl, AList.lookup_erase _ _, ?_, ?_, ?_⟩
  · intro k hk
    exact AList.lookup_erase_ne hk
  · intro l hl
    simp [listenerCloses, List.countP_cons, Ne.symm hl]
  · intro d hd
    simp [engineCloses, List.countP_cons, Ne.symm hd]

/-- Witness for C6: tearing down handle 0 of the table with handles 0 and 1. -/
theorem wgTurnOff_order_frame_witness :
    stubTunnels.lookup 0 = some stubContext ∧
    (wgTurnOff stubTunnels 0).trace =
      [Effect.delete 0, Effect.uapiClose stubContext.uapi,
        Effect.deviceClose stubContext.device] ∧
    (wgTurnOff stubTunnels 0).tunnels.lookup 1 = stubTunnels.lookup 1 :=
  ⟨by decide,
    (wgTurnOff_order_frame stubTunnels 0 stubContext (by decide)).1,
    (wgTurnOff_order_frame stubTunnels 0 stubContext (by decide)).2.2.1 1 (by decide)⟩

/-! ## Theorems: `wgRebindTunnelSocket` -/

/-- The loop of `wgRebindTunnelSocket` appends the effects of its body, entry
after entry. -/
theorem wgRebindTunnelSocket.foldl_filter (f : TunnelContext → List Effect)
    (p : Effect → Bool) (entries : List (Sigma fun _ : Int => TunnelContext)) :
    ∀ acc : List Effect,
      (entries.foldl (fun tr entry => tr ++ f entry.2) acc).filter p =
        acc.filter p ++ (entries.map fun entry => (f entry.2).filter p).flatten := by
  induction entries with
  | nil => intro acc; simp
  | cons e rest ih =>
    intro acc
    simp [List.foldl_cons, ih, List.filter_append, List.append_assoc]

/-- The body of the loop for the family `AF_INET` makes one v4 bind call. -/
theorem wgRebindTunnelSocket.body_bind4 (env : Env) (interfaceIndex : Nat)
    (tunnel : TunnelContext) :
    (wgRebindTunnelSocket.body env env.AF_INET interfaceIndex tunnel).filter Effect.isBind =
      [Effect.bind4 tunnel.device interfaceIndex (interfaceIndex == 0)] := by
  unfold wgRebindTunnelSocket.body
  simp only [if_true]
  cases env.BindSocketToInterface4 tunnel.device interfaceIndex (interfaceIndex == 0) <;>
    simp [List.filter_cons, Effect.isBind]

/-- The body of the loop for the family `AF_INET6` makes one v6 bind call. -/
theorem wgRebindTunnelSocket.body_bind6 (env : Env) (hfam : env.AF_INET ≠ env.AF_INET6)
    (interfaceIndex : Nat) (tunnel : TunnelContext) :
    (wgRebindTunnelSocket.body env env.AF_INET6 interfaceIndex tunnel).filter Effect.isBind =
      [Effect.bind6 tunnel.device interfaceIndex (interfaceIndex == 0)] := by
  unfold wgRebindTunnelSocket.body
  simp only [if_neg (Ne.symm hfam), if_true]
  cases env.BindSocketToInterface6 tunnel.device interfaceIndex (interfaceIndex == 0) <;>
    simp [List.filter_cons, Effect.isBind]

/-- C7. Rebind isolation: for the family `AF_INET` (resp. `AF_INET6`), whatever
each bind call returns, the bind calls that `wgRebindTunnelSocket` makes are
exactly one v4 (resp. v6) bind per registered session, on the engine of that
session, with the given index and with blackhole flag `interfaceIndex == 0`;
the table is unchanged. -/
theorem wgRebindTunnelSocket_broadcast (env : Env) (hfam : env.AF_INET ≠ env.AF_INET6)
    (tunnels : Tunnels) (interfaceIndex : Nat) :
    (wgRebindTunnelSocket env tunnels env.AF_INET interfaceIndex).tunnels = tunnels ∧
    (wgRebindTunnelSocket env tunnels env.AF_INET6 interfaceIndex).tunnels = tunnels ∧
    (wgRebindTunnelSocket env tunnels env.AF_INET interfaceIndex).trace.filter Effect.isBind =
      tunnels.entries.map
        (fun entry => Effect.bind4 entry.2.device interfaceIndex (interfaceIndex == 0)) ∧
    (wgRebindTunnelSocket env tunnels env.AF_INET6 interfaceIndex).trace.filter Effect.isBind =
      tunnels.entries.map
        (fun entry => Effect.bind6 entry.2.device interfaceIndex (interfaceIndex == 0)) := by
  refine ⟨rfl, rfl, ?_, ?_⟩
  · simp only [wgRebindTunnelSocket, wgRebindTunnelSocket.foldl_filter,
      wgRebindTunnelSocket.body_bind4]
    induction tunnels.entries with
    | nil => simp
    | cons e rest ih => simpa using ih
  · simp only [wgRebindTunnelSocket, wgRebindTunnelSocket.foldl_filter,
      wgRebindTunnelSocket.body_bind6 env hfam]
    induction tunnels.entries with
    | nil => simp
    | cons e rest ih => simpa using ih

/-- Witness for C7: two sessions rebound to interface 0; the v4 bind of the one
on tun device 7 fails, and both are bound. -/
theorem wgRebindTunnelSocket_broadcast_witness :
    stubEnv.AF_INET ≠ stubEnv.AF_INET6 ∧
    stubEnv.BindSocketToInterface4 stubContext.device 0 true = some "bind failed" ∧
    (wgRebindTunnelSocket stubEnv stubTunnels stubEnv.AF_INET 0).trace.filter Effect.isBind =
      [Effect.bind4 stubContextOther.device 0 true, Effect.bind4 stubContext.device 0 true] :=
  ⟨by decide, by decide,
    (wgRebindTunnelSocket_broadcast stubEnv (by decide) stubTunnels 0).2.2.1⟩

/-! ## Theorems: `wgTurnOn` -/

/-- The table that `getContextHandle` hands back is the table it was given. -/
theorem getContextHandle.snd_eq (tunnels : Tunnels) : (getContextHandle tunnels).2 = tunnels := by
  simp only [getContextHandle]
  split <;> rfl

/-- A handle that `getContextHandle` returns is free and lies in
`[0, math.MaxInt32)`. -/
theorem getContextHandle.ok_free (tunnels : Tunnels) (contextHandle : Int)
    (hok : (getContextHandle tunnels).1 = Except.ok contextHandle) :
    0 ≤ contextHandle ∧ contextHandle < (MaxInt32 : Int) ∧ contextHandle ∉ tunnels.keys := by
  obtain ⟨_, h2, _, h4⟩ :=
    getContextHandle.loop_spec tunnels MaxInt32 0 (Nat.zero_le _) (by omega)
  simp only [getContextHandle] at hok
  split at hok
  · exact absurd hok (by simp)
  · rename_i hne
    have heq : (getContextHandle.loop tunnels MaxInt32 0 : Int) = contextHandle := by
      simpa using hok
    have hlt : getContextHandle.loop tunnels MaxInt32 0 < MaxInt32 := by omega
    rw [← heq]
    exact ⟨by omega, by omega, h4 hlt⟩

/-- A trace commits nothing when neither of its two parts does. -/
theorem noCommit_append (a b : List Effect) :
    noCommit (a ++ b) = (noCommit a && noCommit b) := by
  simp [noCommit, List.all_append]

/-- The two ways out of the part of `wgTurnOn` that runs under the deferred
`watcher.destroy()`: a failure that returns -1, leaves the table alone and has
closed what it opened, or a success whose last two effects are the launch of
the accept loop and then the assignment into the table. -/
theorem wgTurnOn.deferred_cases (env : Env) (tunnels : Tunnels) (logger : Logger)
    (contextHandle : Int) (ifaceName settings : String) (mtu : Int) (watcher : Watcher)
    (r : Outcome Int)
    (hr : r = wgTurnOn.deferred env tunnels logger contextHandle ifaceName settings mtu watcher) :
    (r.ret = -1 ∧ r.tunnels = tunnels ∧ AllClosed r.trace ∧ noCommit r.trace = true ∧
      (∀ w : Watcher, watcherOpens w r.trace = 0 ∧ watcherCloses w r.trace = 0)) ∨
    (∃ (nativeTun : NativeTun) (uapi : Listener) (pre : List Effect),
      r.ret = contextHandle ∧
      r.tunnels = tunnels.insert contextHandle ⟨⟨nativeTun, logger⟩, uapi, logger⟩ ∧
      r.trace = pre ++
        [Effect.goServiceUAPI uapi ⟨nativeTun, logger⟩ logger,
         Effect.register contextHandle ⟨⟨nativeTun, logger⟩, uapi, logger⟩] ∧
      noCommit pre = true ∧
      (∀ w : Watcher, watcherOpens w r.trace = 0 ∧ watcherCloses w r.trace = 0)) := by
  subst hr
  simp only [wgTurnOn.deferred]
  split
  · left
    simp [AllClosed, noCommit, tunCloses, tunOpens, engineCloses, engineOpens, listenerCloses,
      listenerOpens, watcherOpens, watcherCloses, Effect.isRegister, Effect.isLaunch]
  · rename_i nativeTun _
    split
    · left
      simp [AllClosed, noCommit, tunCloses, tunOpens, engineCloses, engineOpens, listenerCloses,
        listenerOpens, watcherOpens, watcherCloses, Effect.isRegister, Effect.isLaunch,
        List.countP_cons]
    · split
      · left
        simp [AllClosed, noCommit, tunCloses, tunOpens, engineCloses, engineOpens,
          listenerCloses, listenerOpens, watcherOpens, watcherCloses, Effect.isRegister,
          Effect.isLaunch, List.countP_cons]
      · split
        · left
          simp [AllClosed, noCommit, tunCloses, tunOpens, engineCloses, engineOpens,
            listenerCloses, listenerOpens, watcherOpens, watcherCloses, Effect.isRegister,
            Effect.isLaunch, List.countP_cons]
        · rename_i uapi _
          split
          · left
            simp [AllClosed, noCommit, tunCloses, tunOpens, engineCloses, engineOpens,
              listenerCloses, listenerOpens, watcherOpens, watcherCloses, Effect.isRegister,
              Effect.isLaunch, List.countP_cons]
          · split
            · left
              simp [AllClosed, noCommit, tunCloses, tunOpens, engineCloses, engineOpens,
                listenerCloses, listenerOpens, watcherOpens, watcherCloses, Effect.isRegister,
                Effect.isLaunch, List.countP_cons]
            · right
              refine ⟨nativeTun, uapi,
                [Effect.createTUN ifaceName networkId mtu (some nativeTun),
                  Effect.tunName nativeTun, Effect.newDevice ⟨nativeTun, logger⟩,
                  Effect.uapiListen ifaceName (some uapi),
                  Effect.ipcSetOperation ⟨nativeTun, logger⟩ settings,
                  Effect.deviceUp ⟨nativeTun, logger⟩,
                  Effect.println logger.Debug "Waiting for interfaces to attach",
                  Effect.join watcher
                    [⟨env.LUID nativeTun, env.AF_INET⟩, ⟨env.LUID nativeTun, env.AF_INET6⟩] 5,
                  Effect.println logger.Debug "Interfaces OK"],
                rfl, rfl, ?_, ?_, ?_⟩
              · simp
              · simp [noCommit, Effect.isRegister, Effect.isLaunch]
              · simp [watcherOpens, watcherCloses, List.countP_cons]

/-- The two ways out of `wgTurnOn`: a failure that returns -1, leaves the table
alone and has closed what it opened, or a success that returns the handle
`getContextHandle` gave and whose last three effects are the launch of the
accept loop, the assignment into the table and the deferred destroy. -/
theorem wgTurnOn.cases (env : Env) (tunnels : Tunnels) (cIfaceName : Option String) (mtu : Int)
    (cSettings : Option String) (loggingFd : Int) (level : Int) (r : Outcome Int)
    (hr : r = wgTurnOn env tunnels cIfaceName mtu cSettings loggingFd level) :
    (r.ret = -1 ∧ r.tunnels = tunnels ∧ AllClosed r.trace ∧ noCommit r.trace = true ∧
      (∀ w : Watcher, watcherCloses w r.trace = watcherOpens w r.trace)) ∨
    (∃ (contextHandle : Int) (watcher : Watcher) (nativeTun : NativeTun) (uapi : Listener)
        (pre : List Effect),
      (getContextHandle tunnels).1 = Except.ok contextHandle ∧
      r.ret = contextHandle ∧
      r.tunnels = tunnels.insert contextHandle
        ⟨⟨nativeTun, newLogger env.NewFile env.levels loggingFd level⟩, uapi,
          newLogger env.NewFile env.levels loggingFd level⟩ ∧
      r.trace = pre ++
        [Effect.goServiceUAPI uapi ⟨nativeTun, newLogger env.NewFile env.levels loggingFd level⟩
            (newLogger env.NewFile env.levels loggingFd level),
         Effect.register contextHandle
            ⟨⟨nativeTun, newLogger env.NewFile env.levels loggingFd level⟩, uapi,
              newLogger env.NewFile env.levels loggingFd level⟩,
         Effect.destroy watcher] ∧
      noCommit pre = true) := by
  subst hr
  have hsnd := getContextHandle.snd_eq tunnels
  cases cIfaceName with
  | none =>
    left
    simp [wgTurnOn, AllClosed, noCommit, tunCloses, tunOpens, engineCloses, engineOpens,
      listenerCloses, listenerOpens, watcherOpens, watcherCloses, Effect.isRegister,
      Effect.isLaunch]
  | some ifaceName =>
  cases cSettings with
  | none =>
    left
    simp [wgTurnOn, AllClosed, noCommit, tunCloses, tunOpens, engineCloses, engineOpens,
      listenerCloses, listenerOpens, watcherOpens, watcherCloses, Effect.isRegister,
      Effect.isLaunch]
  | some settings =>
    simp only [wgTurnOn]
    · split
      · rename_i err tunnels' hget
        rw [hget] at hsnd
        simp only at hsnd
        subst hsnd
        left
        simp [AllClosed, noCommit, tunCloses, tunOpens, engineCloses, engineOpens,
          listenerCloses, listenerOpens, watcherOpens, watcherCloses, Effect.isRegister,
          Effect.isLaunch]
      · rename_i contextHandle tunnels' hget
        rw [hget] at hsnd
        simp only at hsnd
        subst hsnd
        split
        · left
          simp [AllClosed, noCommit, tunCloses, tunOpens, engineCloses, engineOpens,
            listenerCloses, listenerOpens, watcherOpens, watcherCloses, Effect.isRegister,
            Effect.isLaunch]
        · rename_i watcher _
          rcases wgTurnOn.deferred_cases env tunnels'
              (newLogger env.NewFile env.levels loggingFd level) contextHandle ifaceName
              settings mtu watcher _ rfl with
            ⟨h1, h2, ⟨ht, hd, hl⟩, h4, h5⟩ | ⟨nativeTun, uapi, pre, h1, h2, h3, h4, h5⟩
          · left
            simp only [tunCloses, tunOpens, engineCloses, engineOpens, listenerCloses,
              listenerOpens, watcherOpens, watcherCloses] at ht hd hl h5
            refine ⟨h1, h2, ⟨?_, ?_, ?_⟩, ?_, ?_⟩
            · intro t
              simp [tunCloses, tunOpens, List.countP_append, List.countP_cons, ht t]
            · intro d
              simp [engineCloses, engineOpens, List.countP_append, List.countP_cons, hd d]
            · intro l
              simp [listenerCloses, listenerOpens, List.countP_append, List.countP_cons, hl l]
            · rw [noCommit_append, noCommit_append, h4]
              rfl
            · intro w
              simp [watcherCloses, watcherOpens, List.countP_append, List.countP_cons,
                (h5 w).1, (h5 w).2]
          · right
            refine ⟨contextHandle, watcher, nativeTun, uapi,
              Effect.watchInterfaces (some watcher) :: pre, ?_, h1, h2, ?_, ?_⟩
            · rw [hget]
            · simp [h3]
            · rw [← List.singleton_append, noCommit_append, h4]
              rfl

/-- C2. Atomic registration: when `wgTurnOn` returns a negative value, the
table after the call is the table before it, the trace neither assigns into
the table nor launches the accept loop, and every tun device, engine, listener
and watcher is closed in the trace as often as it was opened in it (closing the
engine counts as closing the tun device the engine is bound to). -/
theorem wgTurnOn_failure_atomic (env : Env) (tunnels : Tunnels) (cIfaceName : Option String)
    (mtu : Int) (cSettings : Option String) (loggingFd : Int) (level : Int)
    (hfail : (wgTurnOn env tunnels cIfaceName mtu cSettings loggingFd level).ret < 0) :
    (wgTurnOn env tunnels cIfaceName mtu cSettings loggingFd level).tunnels = tunnels ∧
    noCommit (wgTurnOn env tunnels cIfaceName mtu cSettings loggingFd level).trace = true ∧
    (∀ t : NativeTun,
      tunCloses t (wgTurnOn env tunnels cIfaceName mtu cSettings loggingFd level).trace =
        tunOpens t (wgTurnOn env tunnels cIfaceName mtu cSettings loggingFd level).trace) ∧
    (∀ d : Device,
      engineCloses d (wgTurnOn env tunnels cIfaceName mtu cSettings loggingFd level).trace =
        engineOpens d (wgTurnOn env tunnels cIfaceName mtu cSettings loggingFd level).trace) ∧
    (∀ l : Listener,
      listenerCloses l (wgTurnOn env tunnels cIfaceName mtu cSettings loggingFd level).trace =
        listenerOpens l (wgTurnOn env tunnels cIfaceName mtu cSettings loggingFd level).trace) ∧
    (∀ w : Watcher,
      watcherCloses w (wgTurnOn env tunnels cIfaceName mtu cSettings loggingFd level).trace =
        watcherOpens w (wgTurnOn env tunnels cIfaceName mtu cSettings loggingFd level).trace) := by
  rcases wgTurnOn.cases env tunnels cIfaceName mtu cSettings loggingFd level _ rfl with
    ⟨_, h2, ⟨ht, hd, hl⟩, h4, h5⟩ | ⟨contextHandle, _, _, _, _, hget, hret, _⟩
  · exact ⟨h2, h4, ht, hd, hl, h5⟩
  · have := (getContextHandle.ok_free tunnels contextHandle hget).1
    omega

/-- Witness for C2: the interfaces never attach, so the call fails at its last
stage, after the tun device, the engine and the listener were opened. -/
theorem wgTurnOn_failure_atomic_witness :
    (wgTurnOn stubEnvNoAttach stubTunnels (some "wg0") 1420 (some "") 1 1).ret < 0 ∧
    (wgTurnOn stubEnvNoAttach stubTunnels (some "wg0") 1420 (some "") 1 1).tunnels =
      stubTunnels ∧
    tunOpens ⟨1⟩ (wgTurnOn stubEnvNoAttach stubTunnels (some "wg0") 1420 (some "") 1 1).trace
      = 1 ∧
    tunCloses ⟨1⟩ (wgTurnOn stubEnvNoAttach stubTunnels (some "wg0") 1420 (some "") 1 1).trace
      = tunOpens ⟨1⟩
        (wgTurnOn stubEnvNoAttach stubTunnels (some "wg0") 1420 (some "") 1 1).trace :=
  ⟨by decide,
    (wgTurnOn_failure_atomic stubEnvNoAttach stubTunnels (some "wg0") 1420 (some "") 1 1
      (by decide)).1,
    by decide,
    (wgTurnOn_failure_atomic stubEnvNoAttach stubTunnels (some "wg0") 1420 (some "") 1 1
      (by decide)).2.2.1 ⟨1⟩⟩

/-- C3. Name-mismatch rejection: when the device is created but reports a name
other than the requested one, `wgTurnOn` returns -1 with the table unchanged,
never constructs the engine, starts the listener, launches the accept loop or
assigns into the table, and calls `nativeTun.Close()` once for each time the
device was created; when the call gets as far as creating the device, its
effects are exactly: start the watcher, create the device, query its name,
close it, log the failure, destroy the watcher. -/
theorem wgTurnOn_name_mismatch (env : Env) (tunnels : Tunnels) (cIfaceName : Option String)
    (ifaceName : String) (mtu : Int) (cSettings : Option String) (loggingFd : Int) (level : Int)
    (nativeTun : NativeTun) (actualInterfaceName : String)
    (hiface : cIfaceName = some ifaceName)
    (hcreate : env.CreateTUNWithRequestedGUID ifaceName networkId mtu = Except.ok nativeTun)
    (hname : env.Name nativeTun = Except.ok actualInterfaceName)
    (hne : actualInterfaceName ≠ ifaceName) :
    (wgTurnOn env tunnels cIfaceName mtu cSettings loggingFd level).ret = -1 ∧
    (wgTurnOn env tunnels cIfaceName mtu cSettings loggingFd level).tunnels = tunnels ∧
    ((wgTurnOn env tunnels cIfaceName mtu cSettings loggingFd level).trace.all
      fun e => !e.isEngineOrListen) = true ∧
    noCommit (wgTurnOn env tunnels cIfaceName mtu cSettings loggingFd level).trace = true ∧
    (wgTurnOn env tunnels cIfaceName mtu cSettings loggingFd level).trace.count
        (Effect.tunClose nativeTun) =
      tunOpens nativeTun (wgTurnOn env tunnels cIfaceName mtu cSettings loggingFd level).trace ∧
    (∀ (settings : String) (contextHandle : Int) (watcher : Watcher),
      cSettings = some settings →
      (getContextHandle tunnels).1 = Except.ok contextHandle →
      env.watchInterfaces = Except.ok watcher →
      (wgTurnOn env tunnels cIfaceName mtu cSettings loggingFd level).trace =
        [Effect.watchInterfaces (some watcher),
         Effect.createTUN ifaceName networkId mtu (some nativeTun),
         Effect.tunName nativeTun,
         Effect.tunClose nativeTun,
         Effect.println (newLogger env.NewFile env.levels loggingFd level).Error
           "Failed to create adapter with specific name",
         Effect.destroy watcher]) := by
  subst hiface
  have hsnd := getContextHandle.snd_eq tunnels
  have hdef : ∀ (logger : Logger) (contextHandle : Int) (settings : String) (watcher : Watcher),
      wgTurnOn.deferred env tunnels logger contextHandle ifaceName settings mtu watcher =
        ⟨-1, tunnels,
          [Effect.createTUN ifaceName networkId mtu (some nativeTun), Effect.tunName nativeTun,
            Effect.tunClose nativeTun,
            Effect.println logger.Error "Failed to create adapter with specific name"]⟩ := by
    intro logger contextHandle settings watcher
    simp [wgTurnOn.deferred, hcreate, hname, hne]
  cases cSettings with
  | none =>
    simp [wgTurnOn, noCommit, tunOpens, Effect.isRegister, Effect.isLaunch,
      Effect.isEngineOrListen]
  | some settings =>
    rcases hget : getContextHandle tunnels with ⟨res, tunnels'⟩
    rw [hget] at hsnd
    simp only at hsnd
    subst hsnd
    cases res with
    | error err =>
      simp [wgTurnOn, hget, noCommit, tunOpens, Effect.isRegister, Effect.isLaunch,
        Effect.isEngineOrListen]
    | ok contextHandle =>
      cases hwatch : env.watchInterfaces with
      | error err =>
        simp [wgTurnOn, hget, hwatch, noCommit, tunOpens, Effect.isRegister, Effect.isLaunch,
          Effect.isEngineOrListen]
      | ok watcher =>
        simp [wgTurnOn, hget, hwatch, hdef, noCommit, tunOpens, Effect.isRegister,
          Effect.isLaunch, Effect.isEngineOrListen, List.countP_cons, List.count_cons]

/-- Witness for C3: the adapter "wg1" is requested and the driver names it
"wg0". -/
theorem wgTurnOn_name_mismatch_witness :
    (wgTurnOn stubEnv stubTunnels (some "wg1") 1420 (some "") 1 1).ret = -1 ∧
    (wgTurnOn stubEnv stubTunnels (some "wg1") 1420 (some "") 1 1).trace.count
        (Effect.tunClose ⟨1⟩) = 1 :=
  ⟨(wgTurnOn_name_mismatch stubEnv stubTunnels (some "wg1") "wg1" 1420 (some "") 1 1 ⟨1⟩ "wg0"
      rfl rfl rfl (by decide)).1,
    by decide⟩

/-- One call keeps every key of the table inside `[0, math.MaxInt32)`. -/
theorem Call.run_keys_in_range (tunnels : Tunnels) (c : Call)
    (hinv : ∀ k ∈ tunnels.keys, 0 ≤ k ∧ k < (MaxInt32 : Int)) :
    ∀ k ∈ (Call.run tunnels c).keys, 0 ≤ k ∧ k < (MaxInt32 : Int) := by
  cases c with
  | turnOn env cIfaceName mtu cSettings loggingFd level =>
    simp only [Call.run]
    rcases wgTurnOn.cases env tunnels cIfaceName mtu cSettings loggingFd level _ rfl with
      ⟨_, h2, _⟩ | ⟨contextHandle, _, _, _, _, hget, _, htun, _⟩
    · rw [h2]; exact hinv
    · rw [htun]
      intro k hk
      rcases (AList.mem_insert tunnels).mp (AList.mem_keys.mpr hk) with h | h
      · subst h
        have := getContextHandle.ok_free tunnels k hget
        exact ⟨this.1, this.2.1⟩
      · exact hinv k (AList.mem_keys.mp h)
  | turnOff contextHandle =>
    simp only [Call.run, wgTurnOff]
    split
    · exact hinv
    · intro k hk
      exact hinv k (AList.mem_keys.mp (AList.mem_erase.mp (AList.mem_keys.mpr hk)).2)

/-- A sequence of calls keeps every key of the table inside
`[0, math.MaxInt32)`. -/
theorem runCalls_keys_in_range (calls : List Call) :
    ∀ tunnels : Tunnels, (∀ k ∈ tunnels.keys, 0 ≤ k ∧ k < (MaxInt32 : Int)) →
      ∀ k ∈ (runCalls tunnels calls).keys, 0 ≤ k ∧ k < (MaxInt32 : Int) := by
  induction calls with
  | nil => intro tunnels hinv; exact hinv
  | cons c rest ih =>
    intro tunnels hinv
    simp only [runCalls, List.foldl_cons]
    exact ih (Call.run tunnels c) (Call.run_keys_in_range tunnels c hinv)

/-- C4. Handle uniqueness: after every sequence of `wgTurnOn` / `wgTurnOff`
calls from the empty table, two entries of the table with the same handle are
the same entry and every handle lies in `[0, math.MaxInt32)`; and every
`wgTurnOn` that returns a non-negative value returns a handle that was not a
key before the call, and leaves the table that was there before plus exactly
one entry, the returned handle mapped to the new session: every other handle
maps to what it mapped to before. -/
theorem wgTurnOn_handle_unique :
    (∀ calls : List Call,
      (∀ e1 ∈ (runCalls ∅ calls).entries, ∀ e2 ∈ (runCalls ∅ calls).entries,
        e1.1 = e2.1 → e1 = e2) ∧
      (∀ k ∈ (runCalls ∅ calls).keys, 0 ≤ k ∧ k < (MaxInt32 : Int))) ∧
    (∀ (env : Env) (tunnels : Tunnels) (cIfaceName : Option String) (mtu : Int)
        (cSettings : Option String) (loggingFd : Int) (level : Int),
      0 ≤ (wgTurnOn env tunnels cIfaceName mtu cSettings loggingFd level).ret →
      (wgTurnOn env tunnels cIfaceName mtu cSettings loggingFd level).ret ∉ tunnels.keys ∧
      (wgTurnOn env tunnels cIfaceName mtu cSettings loggingFd level).ret < (MaxInt32 : Int) ∧
      ∃ ctx : TunnelContext,
        Effect.register (wgTurnOn env tunnels cIfaceName mtu cSettings loggingFd level).ret ctx ∈
          (wgTurnOn env tunnels cIfaceName mtu cSettings loggingFd level).trace ∧
        (wgTurnOn env tunnels cIfaceName mtu cSettings loggingFd level).tunnels.entries =
          ⟨(wgTurnOn env tunnels cIfaceName mtu cSettings loggingFd level).ret, ctx⟩ ::
            tunnels.entries ∧
        (wgTurnOn env tunnels cIfaceName mtu cSettings loggingFd level).tunnels.lookup
          (wgTurnOn env tunnels cIfaceName mtu cSettings loggingFd level).ret = some ctx ∧
        ∀ k : Int, k ≠ (wgTurnOn env tunnels cIfaceName mtu cSettings loggingFd level).ret →
          (wgTurnOn env tunnels cIfaceName mtu cSettings loggingFd level).tunnels.lookup k =
            tunnels.lookup k) := by
  constructor
  · intro calls
    constructor
    · intro e1 h1 e2 h2 hkey
      exact (runCalls ∅ calls).nodupKeys.eq_of_fst_eq h1 h2 hkey
    · exact runCalls_keys_in_range calls ∅ (by intro k hk; simp at hk)
  · intro env tunnels cIfaceName mtu cSettings loggingFd level hok
    rcases wgTurnOn.cases env tunnels cIfaceName mtu cSettings loggingFd level _ rfl with
      ⟨h1, _⟩ | ⟨contextHandle, watcher, nativeTun, uapi, pre, hget, hret, htun, htrace, _⟩
    · omega
    · obtain ⟨_, hlt, hfree⟩ := getContextHandle.ok_free tunnels contextHandle hget
      rw [hret, htun, htrace]
      refine ⟨hfree, hlt,
        ⟨⟨nativeTun, newLogger env.NewFile env.levels loggingFd level⟩, uapi,
          newLogger env.NewFile env.levels loggingFd level⟩, ?_, ?_, ?_, ?_⟩
      · simp
      · exact AList.insert_entries_of_neg (fun h => hfree (AList.mem_keys.mp h))
      · exact AList.lookup_insert _
      · intro k hk
        exact AList.lookup_insert_ne hk

/-- Witness for C4: with the handles 0 and 1 registered, a successful bring-up
returns 2, and handle 0 still maps to its session. -/
theorem wgTurnOn_handle_unique_witness :
    (wgTurnOn stubEnv stubTunnels (some "wg0") 1420 (some "") 1 1).ret = 2 ∧
    (wgTurnOn stubEnv stubTunnels (some "wg0") 1420 (some "") 1 1).ret ∉ stubTunnels.keys ∧
    (wgTurnOn stubEnv stubTunnels (some "wg0") 1420 (some "") 1 1).tunnels.lookup 0 =
      stubTunnels.lookup 0 :=
  ⟨by decide,
    (wgTurnOn_handle_unique.2 stubEnv stubTunnels (some "wg0") 1420 (some "") 1 1
      (by decide)).1,
    (wgTurnOn_handle_unique.2 stubEnv stubTunnels (some "wg0") 1420 (some "") 1 1
      (by decide)).2.2.elim fun _ h => h.2.2.2 0 (by decide)⟩

/-- When nothing before them assigns into the table or launches the accept
loop, a launch followed by an assignment puts the launch first. -/
theorem occursBefore_launch_register (launch register last : Effect)
    (hl : launch.isLaunch = true) (hl' : launch.isRegister = false)
    (hr : register.isRegister = true) (hr' : register.isLaunch = false)
    (hd : last.isRegister = false ∧ last.isLaunch = false) :
    ∀ pre : List Effect, noCommit pre = true →
      occursBefore Effect.isLaunch Effect.isRegister (pre ++ [launch, register, last]) = true ∧
      occursBefore Effect.isRegister Effect.isLaunch (pre ++ [launch, register, last]) = false := by
  intro pre
  induction pre with
  | nil =>
    intro _
    simp [occursBefore, hl, hl', hr, hr', hd.1, hd.2]
  | cons e rest ih =>
    intro hpre
    simp only [noCommit, List.all_cons, Bool.and_eq_true, Bool.not_eq_true'] at hpre
    obtain ⟨⟨he1, he2⟩, hrest⟩ := hpre
    obtain ⟨ih1, ih2⟩ := ih (by simpa [noCommit] using hrest)
    show occursBefore Effect.isLaunch Effect.isRegister
          (e :: (rest ++ [launch, register, last])) = true ∧
        occursBefore Effect.isRegister Effect.isLaunch
          (e :: (rest ++ [launch, register, last])) = false
    simp only [occursBefore, he1, he2, Bool.false_and, Bool.false_or]
    exact ⟨ih1, ih2⟩

/-- C9, as the spec states it, fails: in this successful bring-up no assignment
into the table occurs before the launch of the accept loop. -/
theorem wgTurnOn_register_first_counterexample :
    ¬ (0 ≤ (wgTurnOn stubEnv ∅ (some "wg0") 1420 (some "") 1 1).ret →
      occursBefore Effect.isRegister Effect.isLaunch
        (wgTurnOn stubEnv ∅ (some "wg0") 1420 (some "") 1 1).trace = true) := by
  decide

/-- C9, amended. In every successful `wgTurnOn` the accept loop is launched
before the session is assigned into the table: the trace ends with the launch,
the assignment of the session, built from the listener and engine the loop was
launched with, under the returned handle, and the deferred destroy; nothing
before them launches or assigns; so the launch occurs before the assignment and
no assignment occurs before the launch. -/
theorem wgTurnOn_launch_before_register (env : Env) (tunnels : Tunnels)
    (cIfaceName : Option String) (mtu : Int) (cSettings : Option String) (loggingFd : Int)
    (level : Int)
    (hok : 0 ≤ (wgTurnOn env tunnels cIfaceName mtu cSettings loggingFd level).ret) :
    (∃ (pre : List Effect) (uapi : Listener) (device : Device) (logger : Logger)
        (watcher : Watcher),
      (wgTurnOn env tunnels cIfaceName mtu cSettings loggingFd level).trace = pre ++
        [Effect.goServiceUAPI uapi device logger,
         Effect.register (wgTurnOn env tunnels cIfaceName mtu cSettings loggingFd level).ret
           ⟨device, uapi, logger⟩,
         Effect.destroy watcher] ∧
      noCommit pre = true ∧
      (wgTurnOn env tunnels cIfaceName mtu cSettings loggingFd level).tunnels.lookup
        (wgTurnOn env tunnels cIfaceName mtu cSettings loggingFd level).ret =
          some ⟨device, uapi, logger⟩) ∧
    occursBefore Effect.isLaunch Effect.isRegister
      (wgTurnOn env tunnels cIfaceName mtu cSettings loggingFd level).trace = true ∧
    occursBefore Effect.isRegister Effect.isLaunch
      (wgTurnOn env tunnels cIfaceName mtu cSettings loggingFd level).trace = false := by
  rcases wgTurnOn.cases env tunnels cIfaceName mtu cSettings loggingFd level _ rfl with
    ⟨h1, _⟩ | ⟨contextHandle, watcher, nativeTun, uapi, pre, _, hret, htun, htrace, hpre⟩
  · omega
  · rw [hret, htun, htrace]
    refine ⟨⟨pre, uapi, _, _, watcher, rfl, hpre, AList.lookup_insert _⟩, ?_⟩
    exact occursBefore_launch_register (Effect.goServiceUAPI _ _ _) (Effect.register _ _)
      (Effect.destroy _) rfl rfl rfl rfl ⟨rfl, rfl⟩ pre hpre

/-- Witness for C9, amended: a bring-up in which every collaborator succeeds. -/
theorem wgTurnOn_launch_before_register_witness :
    0 ≤ (wgTurnOn stubEnv ∅ (some "wg0") 1420 (some "") 1 1).ret ∧
    occursBefore Effect.isLaunch Effect.isRegister
      (wgTurnOn stubEnv ∅ (some "wg0") 1420 (some "") 1 1).trace = true :=
  ⟨by decide,
    (wgTurnOn_launch_before_register stubEnv ∅ (some "wg0") 1420 (some "") 1 1
      (by decide)).2.1⟩

/-! ## Theorems: the UAPI accept loop -/

/-- An iteration never leaves the loop. -/
theorem serviceUAPI.iteration_running (uapi : Listener) (device : Device) (logger : Logger)
    (r : Except AcceptError Nat) :
    (serviceUAPI.iteration uapi device logger r).1 = LoopStatus.running := by
  cases r <;> rfl

/-- The loop unfolds into its iterations. -/
theorem serviceUAPI.succ_eq (uapi : Listener) (device : Device) (logger : Logger)
    (Accept : Nat → Except AcceptError Nat) (fuel n : Nat) :
    serviceUAPI uapi device logger Accept (fuel + 1) n =
      ((serviceUAPI uapi device logger Accept fuel (n + 1)).1,
        (serviceUAPI.iteration uapi device logger (Accept n)).2 ++
          (serviceUAPI uapi device logger Accept fuel (n + 1)).2) := by
  rw [serviceUAPI]
  cases Accept n <;> rfl

/-- The loop is still running after any number of iterations. -/
theorem serviceUAPI.status_running (uapi : Listener) (device : Device) (logger : Logger)
    (Accept : Nat → Except AcceptError Nat) :
    ∀ fuel n : Nat, (serviceUAPI uapi device logger Accept fuel n).1 = LoopStatus.running := by
  intro fuel
  induction fuel with
  | zero => intro n; rfl
  | succ fuel ih => intro n; rw [serviceUAPI.succ_eq]; exact ih (n + 1)

/-- The loop calls `uapi.Accept()` once in each iteration. -/
theorem serviceUAPI.accept_count (uapi : Listener) (device : Device) (logger : Logger)
    (Accept : Nat → Except AcceptError Nat) :
    ∀ fuel n : Nat,
      (serviceUAPI uapi device logger Accept fuel n).2.countP Effect.isAccept = fuel := by
  intro fuel
  induction fuel with
  | zero => intro n; rfl
  | succ fuel ih =>
    intro n
    rw [serviceUAPI.succ_eq]
    simp only [List.countP_append, ih (n + 1)]
    cases Accept n <;> simp [serviceUAPI.iteration, List.countP_cons, Effect.isAccept] <;> omega

/-- C10. The code at the failing input: a bring-up in which every collaborator
succeeds launches the accept loop on listener 1 and registers handle 0;
`wgTurnOff` of handle 0 closes listener 1; from then on every accept fails with
the listener-closed error, and the loop does not exit: after any number of
iterations it is still running and has called `uapi.Accept()` once per
iteration, each failing accept being logged and followed by `continue` (two
iterations are shown in full). The claim says the loop terminates after the
failing accept. -/
theorem serviceUAPI_spins_after_close :
    (wgTurnOn stubEnv ∅ (some "wg0") 1420 (some "") 1 1).ret = 0 ∧
    Effect.goServiceUAPI ⟨1⟩ ⟨⟨1⟩, newLogger stubNewFile stubLevels 1 1⟩
        (newLogger stubNewFile stubLevels 1 1) ∈
      (wgTurnOn stubEnv ∅ (some "wg0") 1420 (some "") 1 1).trace ∧
    (wgTurnOff (wgTurnOn stubEnv ∅ (some "wg0") 1420 (some "") 1 1).tunnels 0).trace =
      [Effect.delete 0, Effect.uapiClose ⟨1⟩,
        Effect.deviceClose ⟨⟨1⟩, newLogger stubNewFile stubLevels 1 1⟩] ∧
    serviceUAPI ⟨1⟩ ⟨⟨1⟩, newLogger stubNewFile stubLevels 1 1⟩
        (newLogger stubNewFile stubLevels 1 1) stubClosedAccept 2 0 =
      (LoopStatus.running,
        [Effect.accept ⟨1⟩,
         Effect.println (newLogger stubNewFile stubLevels 1 1).Info "UAPI Accept() failed",
         Effect.println (newLogger stubNewFile stubLevels 1 1).Info
           "use of closed network connection",
         Effect.accept ⟨1⟩,
         Effect.println (newLogger stubNewFile stubLevels 1 1).Info "UAPI Accept() failed",
         Effect.println (newLogger stubNewFile stubLevels 1 1).Info
           "use of closed network connection"]) ∧
    (∀ fuel : Nat,
      (serviceUAPI ⟨1⟩ ⟨⟨1⟩, newLogger stubNewFile stubLevels 1 1⟩
          (newLogger stubNewFile stubLevels 1 1) stubClosedAccept fuel 0).1 =
        LoopStatus.running ∧
      (serviceUAPI ⟨1⟩ ⟨⟨1⟩, newLogger stubNewFile stubLevels 1 1⟩
          (newLogger stubNewFile stubLevels 1 1) stubClosedAccept fuel 0).2.countP
        Effect.isAccept = fuel) ∧
    ¬ ∃ fuel : Nat,
      (serviceUAPI ⟨1⟩ ⟨⟨1⟩, newLogger stubNewFile stubLevels 1 1⟩
          (newLogger stubNewFile stubLevels 1 1) stubClosedAccept fuel 0).1 =
        LoopStatus.exited := by
  refine ⟨by decide, by decide, by decide, by decide, ?_, ?_⟩
  · intro fuel
    exact ⟨serviceUAPI.status_running _ _ _ _ fuel 0, serviceUAPI.accept_count _ _ _ _ fuel 0⟩
  · rintro ⟨fuel, h⟩
    rw [serviceUAPI.status_running] at h
    exact absurd h (by decide)

end Libwg
